import Mathlib

/-!
Shallow embedding of the FDS-Snake game core (Python sources under
`src/raspi/`): the game state machine and input handlers of `snake.py`,
the name-capture sub-machine of `functions/name.py`, and the leaderboard
store operations of `functions/database.py`.

Conventions of the embedding:
* `pygame.math.Vector2` cells and directions become `Vec2` (integer pairs);
  the game only ever stores integer-valued vectors.
* Pygame key codes are abstracted to the inductive `Key` (only the keys the
  handlers inspect are distinguished; every other key code is `K_other`).
* Wall-clock milliseconds (`pygame.time.get_ticks()`) are passed explicitly
  as a `Nat` argument wherever the Python reads the clock.
* Randomness (`FRUIT.randomize`, `shuffle_list`) is modelled by explicit
  streams carried in the game state: `randStream : Nat → Vec2` with a cursor
  `randIdx` for fruit placement, and `shuffleStream : Nat → List Vec2` with a
  cursor `shuffleIdx` for direction shuffles.
* The SQLite store becomes `DataBase`: a list of `(Teamname, Punkte)` rows
  plus two failure flags — `curOk = false` models a failed connection
  (`self.cur is None`), `queryFails = true` models `sqlite3.Error` raised by
  a query; timestamps are irrelevant to the verified claims and are dropped.
-/

/-- Integer 2D vector, the embedding of `pygame.math.Vector2` as used by the
game (cells and unit directions). -/
structure Vec2 where
  x : Int
  y : Int
deriving DecidableEq, Repr

instance : Add Vec2 where
  add a b := ⟨a.x + b.x, a.y + b.y⟩

/-- The zero vector `Vector2(0, 0)`. -/
def Vec2.zero : Vec2 := ⟨0, 0⟩

theorem Vec2.add_def (a b : Vec2) : a + b = ⟨a.x + b.x, a.y + b.y⟩ := rfl

/-- The pygame key codes the handlers inspect; all other key codes are
collapsed into `K_other`. -/
inductive Key where
  | K_UP
  | K_DOWN
  | K_LEFT
  | K_RIGHT
  | K_RETURN
  | K_ESCAPE
  | K_other
deriving DecidableEq, Repr

/-- The handler `NameInputManager.handle_input` accepts either a pygame key code
(`isinstance(input_signal, int)`) or a serial button command string
(`isinstance(input_signal, str)`). -/
inductive InputSignal where
  | key : Key → InputSignal
  | cmd : String → InputSignal
deriving DecidableEq, Repr

/-- The `GameState` enum of `snake.py`. -/
inductive GameState where
  | PLAYING
  | GAME_OVER
  | NAME_INPUT
deriving DecidableEq, Repr

/-! ## Leaderboard store (`functions/database.py`) -/

/-- The SQLite-backed store. `rows` holds `(Teamname, Punkte)` in insertion
order; `curOk = false` embeds a failed connection (`self.cur is None`),
`queryFails = true` embeds `sqlite3.Error` raised while executing a query. -/
structure DataBase where
  curOk : Bool
  queryFails : Bool
  rows : List (String × Int)
deriving DecidableEq, Repr

/-- Insert into a descending-sorted list of scores (helper for the embedding
of `ORDER BY Punkte DESC`). -/
def insertDesc (a : Int) : List Int → List Int
  | [] => [a]
  | b :: bs => if a ≥ b then a :: b :: bs else b :: insertDesc a bs

/-- Sort a list of scores in descending order — the embedding of SQLite's
`ORDER BY Punkte DESC`. -/
def sortDesc : List Int → List Int
  | [] => []
  | a :: as => insertDesc a (sortDesc as)

/-- Embedding of `DataBase.in_top10`: `SELECT Punkte FROM Highscores ORDER BY Punkte DESC
LIMIT 1 OFFSET 9`; if no row comes back the store holds fewer than 10 records
and every score qualifies, otherwise the score must strictly exceed the
10th-highest stored score.  A missing cursor or a query error yields
`false`. -/
def DataBase.in_top10 (db : DataBase) (score : Int) : Bool :=
  if ¬ db.curOk then false
  else if db.queryFails then false
  else
    match (sortDesc (db.rows.map Prod.snd)).get? 9 with
    | none => true
    | some tenth => score > tenth

/-- Embedding of `DataBase.append_team`: inserts a `(Teamname, Punkte)` row; a missing
cursor or a query error leaves the store unchanged (the exception is caught
and only logged). -/
def DataBase.append_team (db : DataBase) (teamname : String) (score : Int) :
    DataBase :=
  if ¬ db.curOk then db
  else if db.queryFails then db
  else { db with rows := db.rows ++ [(teamname, score)] }

/-! ## Name capture sub-machine (`functions/name.py`) -/

/-- Python's `self.allowed_chars = "ABCDEFGHIJKLMNOPQRSTUVWXYZ1234567890"`. -/
def allowed_chars : List Char :=
  ['A','B','C','D','E','F','G','H','I','J','K','L','M',
   'N','O','P','Q','R','S','T','U','V','W','X','Y','Z',
   '1','2','3','4','5','6','7','8','9','0']

/-- Python's `self.name_length = 5`. -/
def name_length : Nat := 5

/-- Python's `self.ok_button_index = self.name_length`. -/
def ok_button_index : Nat := name_length

/-- Python's `self.num_focus_items = self.name_length + 1`. -/
def num_focus_items : Nat := name_length + 1

/-- Python's `self.input_delay = 20` (both in `NameInputManager` and in `Game`). -/
def input_delay : Nat := 20

/-- Python's `str.find`: index of the first occurrence, `-1` if absent. -/
def strFind : List Char → Char → Int
  | [], _ => -1
  | a :: as, c =>
    if a = c then 0
    else
      match strFind as c with
      | -1 => -1
      | r => r + 1

/-- The mutable state of `NameInputManager` (fonts and the asset-path hook
are rendering-only and omitted). -/
structure NameInputManager where
  active : Bool
  player_name_chars : List Char
  current_focus_index : Nat
  final_entered_name : String
  current_score : Int
  last_input_time : Nat
deriving DecidableEq, Repr

/-- Embedding of `NameInputManager.activate`: arms the sub-machine with a fresh "AAAAA"
buffer, focus 0, the captured score, and the current clock reading. -/
def NameInputManager.activate (m : NameInputManager) (score_value : Int)
    (now : Nat) : NameInputManager :=
  { m with
    active := true
    player_name_chars := List.replicate name_length 'A'
    current_focus_index := 0
    current_score := score_value
    last_input_time := now }

/-- Embedding of `NameInputManager.deactivate`. -/
def NameInputManager.deactivate (m : NameInputManager) : NameInputManager :=
  { m with active := false }

/-- Translation of the raw input signal to the internal action string
(`None` becomes `none`): keys map to the six actions, serial strings only to
the four direction commands. -/
def resolveAction : InputSignal → Option String
  | .key k =>
    match k with
    | .K_UP => some "UP"
    | .K_DOWN => some "DOWN"
    | .K_LEFT => some "LEFT"
    | .K_RIGHT => some "RIGHT"
    | .K_RETURN => some "CONFIRM_GLOBAL"
    | .K_ESCAPE => some "ESCAPE"
    | .K_other => none
  | .cmd s =>
    if s = "UP" ∨ s = "DOWN" ∨ s = "LEFT" ∨ s = "RIGHT" then some s else none

/-- Embedding of `NameInputManager.handle_input`.  Returns the status string (`none`
embeds Python's `None`) together with the updated manager and store.  `now`
is the `pygame.time.get_ticks()` reading taken inside the handler. -/
def NameInputManager.handle_input (m : NameInputManager) (db : DataBase)
    (input_signal : InputSignal) (now : Nat) :
    Option String × NameInputManager × DataBase :=
  if ¬ m.active then (none, m, db)
  else if now - m.last_input_time < input_delay then (none, m, db)
  else
    let m := { m with last_input_time := now }
    let action := resolveAction input_signal
    if action = some "LEFT" then
      (some "ACTION_TAKEN",
       { m with current_focus_index :=
          (m.current_focus_index + num_focus_items - 1) % num_focus_items },
       db)
    else if action = some "RIGHT" then
      (some "ACTION_TAKEN",
       { m with current_focus_index :=
          (m.current_focus_index + 1) % num_focus_items },
       db)
    else if action = some "UP" ∨ action = some "DOWN" then
      if m.current_focus_index < name_length then
        let char_idx := strFind allowed_chars
          (m.player_name_chars.getD m.current_focus_index 'A')
        let char_idx :=
          if action = some "UP" then (char_idx - 1) % (allowed_chars.length : Int)
          else (char_idx + 1) % (allowed_chars.length : Int)
        let newChar := allowed_chars.getD char_idx.toNat 'A'
        (some "ACTION_TAKEN",
         { m with player_name_chars :=
            m.player_name_chars.set m.current_focus_index newChar },
         db)
      else if m.current_focus_index = ok_button_index then
        let name := String.mk m.player_name_chars
        let m := { m with final_entered_name := name }
        let db := db.append_team name m.current_score
        (some "NAME_ENTERED", m.deactivate, db)
      else (none, m, db)
    else if action = some "CONFIRM_GLOBAL" then
      if m.current_focus_index = ok_button_index then
        let name := String.mk m.player_name_chars
        let m := { m with final_entered_name := name }
        let db := db.append_team name m.current_score
        (some "NAME_ENTERED", m.deactivate, db)
      else
        (some "ACTION_TAKEN",
         { m with current_focus_index := ok_button_index }, db)
    else if action = some "ESCAPE" then
      (some "ESC_PRESSED", m.deactivate, db)
    else (none, m, db)

/-! ## Game state machine (`snake.py`) -/

/-- The snake entity.  Only the fields the verified handlers touch are
modelled: the ordered body (head at index 0) and the facing direction.
The `SNAKE` class itself (`functions/body.py`) is not part of the sources. -/
structure SNAKE where
  body : List Vec2
  direction : Vec2

/-- Modelled from the spec: `SNAKE.add_block` (the `SNAKE` class of
`functions/body.py` is missing from the sources); the spec says a new tail
block is appended, duplicating the current tail position. -/
def SNAKE.add_block (s : SNAKE) : SNAKE :=
  { s with body := s.body ++ [s.body.getLastD Vec2.zero] }

/-- Python's `self.start_vectors`: index 0 LEFT, 1 DOWN, 2 UP, 3 RIGHT. -/
def start_vectors : List Vec2 := [⟨-1, 0⟩, ⟨0, 1⟩, ⟨0, -1⟩, ⟨1, 0⟩]

/-- Python's `self.base_speed = 140`. -/
def base_speed : Int := 140

/-- Python's `self.min_speed = 75`. -/
def min_speed : Int := 75

/-- Python's `self.speed_increment = 5`. -/
def speed_increment : Int := 5

/-- The mutable state of `Game` that the verified logic reads or writes.
Rendering and asset fields are omitted.  Randomness is supplied by oracle
streams: `randStream`/`randIdx` feed `FRUIT.randomize`, and
`shuffleStream`/`shuffleIdx` feed `shuffle_list`; `shuffleCount` counts how
often the control remapper has run (an observer for the verification, not a
Python field). -/
structure Game where
  vectors : List Vec2
  snake : SNAKE
  fruit : Vec2
  current_speed : Int
  game_state : GameState
  name_manager : NameInputManager
  db : DataBase
  new_direction : Vec2
  last_input_time : Nat
  running : Bool
  randStream : Nat → Vec2
  randIdx : Nat
  shuffleStream : Nat → List Vec2
  shuffleIdx : Nat
  shuffleCount : Nat

/-- Modelled from the spec: `FRUIT.randomize` (the `FRUIT` class of
`functions/fruit.py` is missing from the sources); the spec says the fruit
is positioned uniformly at random within the grid, so the embedding draws
the next cell of the oracle stream. -/
def Game.randomize_fruit (g : Game) : Game :=
  { g with fruit := g.randStream g.randIdx, randIdx := g.randIdx + 1 }

/-- Modelled from the spec: the snake created by `Game.reset_game` has
length 3 (the constructor lives in the missing `functions/body.py`); the
game starts moving right. -/
def initial_snake : SNAKE :=
  { body := [⟨5, 10⟩, ⟨4, 10⟩, ⟨3, 10⟩], direction := ⟨1, 0⟩ }

/-- Embedding of `Game.reset_game`: restores the default control mapping, rebuilds the
snake and fruit, resets speed, state, the name manager and the debounce
timestamp.  (`update_arrow_directions` and `pygame.time.set_timer` only
touch UI/timer collaborators and are not modelled.) -/
def Game.reset_game (g : Game) : Game :=
  let g := { g with vectors := start_vectors }
  let g := { g with snake := initial_snake }
  let g := g.randomize_fruit
  { g with
    current_speed := base_speed
    game_state := GameState.PLAYING
    name_manager := g.name_manager.deactivate
    new_direction := ⟨1, 0⟩
    last_input_time := 0 }

/-- Embedding of `Game.handle_playing_keydown`.  Returns `action_taken` with the updated
game.  The Python guard `potential_new_direction and potential_new_direction
+ current_direction != Vector2(0, 0)` uses `Vector2` truthiness, hence the
`p ≠ Vec2.zero` conjunct. -/
def Game.handle_playing_keydown (g : Game) (key : Key) : Bool × Game :=
  let current_direction := g.snake.direction
  let potential : Option Vec2 :=
    if key = Key.K_LEFT then some (g.vectors.getD 0 Vec2.zero)
    else if key = Key.K_DOWN then some (g.vectors.getD 1 Vec2.zero)
    else if key = Key.K_UP then some (g.vectors.getD 2 Vec2.zero)
    else if key = Key.K_RIGHT then some (g.vectors.getD 3 Vec2.zero)
    else none
  match potential with
  | some p =>
    if p ≠ Vec2.zero ∧ p + current_direction ≠ Vec2.zero then
      (true, { g with new_direction := p })
    else (false, g)
  | none =>
    if key = Key.K_ESCAPE then (true, { g with running := false })
    else (false, g)

/-- Embedding of `Game.handle_keydown`: state-based dispatch; `last_input_time` is set to
`current_time_ms` only when `action_taken` ended up true. -/
def Game.handle_keydown (g : Game) (key : Key) (current_time_ms : Nat) :
    Bool × Game :=
  match g.game_state with
  | GameState.NAME_INPUT =>
    let r := g.name_manager.handle_input g.db (.key key) current_time_ms
    let g := { g with name_manager := r.2.1, db := r.2.2 }
    (match r.1 with
     | none => (false, g)
     | some res =>
       let g :=
         if res = "NAME_ENTERED" ∨ res = "ESC_PRESSED" then g.reset_game else g
       (true, { g with last_input_time := current_time_ms }))
  | GameState.PLAYING =>
    let hr := g.handle_playing_keydown key
    if hr.1 then (true, { hr.2 with last_input_time := current_time_ms })
    else (false, hr.2)
  | GameState.GAME_OVER =>
    if key = Key.K_ESCAPE then
      (true, { g with running := false, last_input_time := current_time_ms })
    else
      (true, { g.reset_game with last_input_time := current_time_ms })

/-- Embedding of `Game.handle_button_input`: serial command dispatch (same shape as the
keyboard path, but commands are the four strings). -/
def Game.handle_button_input (g : Game) (command : String)
    (current_time_ms : Nat) : Game :=
  match g.game_state with
  | GameState.NAME_INPUT =>
    let r := g.name_manager.handle_input g.db (.cmd command) current_time_ms
    let g := { g with name_manager := r.2.1, db := r.2.2 }
    (match r.1 with
     | none => g
     | some res =>
       let g :=
         if res = "NAME_ENTERED" ∨ res = "ESC_PRESSED" then g.reset_game else g
       { g with last_input_time := current_time_ms })
  | GameState.PLAYING =>
    let current_direction := g.snake.direction
    let potential : Option Vec2 :=
      if command = "LEFT" then some (g.vectors.getD 0 Vec2.zero)
      else if command = "DOWN" then some (g.vectors.getD 1 Vec2.zero)
      else if command = "UP" then some (g.vectors.getD 2 Vec2.zero)
      else if command = "RIGHT" then some (g.vectors.getD 3 Vec2.zero)
      else none
    (match potential with
     | some p =>
       if p ≠ Vec2.zero ∧ p + current_direction ≠ Vec2.zero then
         { g with new_direction := p, last_input_time := current_time_ms }
       else g
     | none => g)
  | GameState.GAME_OVER =>
    { g.reset_game with last_input_time := current_time_ms }

/-- Embedding of `Game.update_speed`: re-derives the tick interval from the score and
commits it only when it changed (the `pygame.time.set_timer` call is an
external timer effect). -/
def Game.update_speed (g : Game) : Game :=
  let score : Int := (g.snake.body.length : Int) - 3
  let new_speed := max min_speed (base_speed - score * speed_increment)
  if new_speed ≠ g.current_speed then { g with current_speed := new_speed }
  else g

/-- The `for b in self.snake.body: if self.fruit.position == b:
self.fruit.randomize()` pass of `check_fruit_collision`: one sweep over a
snapshot of the body, re-randomizing on each matching cell. -/
def fruit_recheck_loop : List Vec2 → Game → Game
  | [], g => g
  | b :: rest, g =>
    if g.fruit = b then fruit_recheck_loop rest g.randomize_fruit
    else fruit_recheck_loop rest g

/-- Embedding of `Game.check_fruit_collision`: on consumption (`fruit.position ==
snake.body[0]`), relocate the fruit, grow the snake, possibly shuffle the
control vectors at positive multiples of 5 of the post-growth score,
re-check the fruit against the body in one sweep, then update the speed. -/
def Game.check_fruit_collision (g : Game) : Game :=
  if g.fruit = g.snake.body.headD Vec2.zero then
    let g := g.randomize_fruit
    let g := { g with snake := g.snake.add_block }
    let score : Int := (g.snake.body.length : Int) - 2
    let g :=
      if score % 5 = 0 ∧ score ≠ 0 then
        { g with
          vectors := g.shuffleStream g.shuffleIdx
          shuffleIdx := g.shuffleIdx + 1
          shuffleCount := g.shuffleCount + 1 }
      else g
    let g := fruit_recheck_loop g.snake.body g
    g.update_speed
  else g

/-- Embedding of `Game.game_over` as defined at lines 259–269 of `snake.py` (the class
later redefines `game_over` with dead legacy code referring to undefined
globals; the claims address the first definition): enter `GAME_OVER`,
restore the default mapping, and move on to `NAME_INPUT` when the score is
eligible.  `now` is the clock reading `NameInputManager.activate` takes. -/
def Game.game_over (g : Game) (now : Nat) : Game :=
  let g := { g with game_state := GameState.GAME_OVER }
  let current_score_val : Int := (g.snake.body.length : Int) - 3
  let g := { g with vectors := start_vectors }
  if g.db.in_top10 current_score_val then
    { g with
      name_manager := g.name_manager.activate current_score_val now
      game_state := GameState.NAME_INPUT }
  else g

/-! ## Supporting lemmas -/

theorem insertDesc_perm (a : Int) (l : List Int) :
    List.Perm (insertDesc a l) (a :: l) := by
  induction l with
  | nil => rfl
  | cons b bs ih =>
    unfold insertDesc
    split
    · rfl
    · exact ((ih.cons b).trans (List.Perm.swap a b bs))

theorem sortDesc_perm (l : List Int) : List.Perm (sortDesc l) l := by
  induction l with
  | nil => rfl
  | cons a as ih =>
    exact (insertDesc_perm a (sortDesc as)).trans (ih.cons a)

theorem sortDesc_length (l : List Int) : (sortDesc l).length = l.length :=
  (sortDesc_perm l).length_eq

theorem insertDesc_sorted (a : Int) (l : List Int)
    (h : l.Sorted (· ≥ ·)) : (insertDesc a l).Sorted (· ≥ ·) := by
  induction l with
  | nil => simp [insertDesc]
  | cons b bs ih =>
    unfold insertDesc
    split
    · rename_i hab
      refine List.sorted_cons.mpr ⟨?_, h⟩
      intro c hc
      rcases List.mem_cons.mp hc with hc | hc
      · omega
      · have hb := (List.sorted_cons.mp h).1 c hc
        omega
    · rename_i hab
      have hbs := (List.sorted_cons.mp h).2
      refine List.sorted_cons.mpr ⟨?_, ih hbs⟩
      intro c hc
      have hm := (insertDesc_perm a bs).mem_iff.mp hc
      rcases List.mem_cons.mp hm with hm | hm
      · omega
      · exact (List.sorted_cons.mp h).1 c hm

theorem sortDesc_sorted (l : List Int) : (sortDesc l).Sorted (· ≥ ·) := by
  induction l with
  | nil => simp [sortDesc]
  | cons a as ih => exact insertDesc_sorted a (sortDesc as) ih

/-- The 10th-highest stored score: entry 9 of the descending-sorted score
column (only meaningful when at least 10 rows exist). -/
def tenth_highest (db : DataBase) : Int :=
  (sortDesc (db.rows.map Prod.snd)).getD 9 0

/-! ## Claims -/

/-- C2: with a working store, `in_top10` returns `true` for every score when
fewer than 10 records are held; once at least 10 records exist it returns
`true` iff the score strictly exceeds the 10th-highest stored score (ties
are not eligible). -/
theorem in_top10_eligibility (db : DataBase) (score : Int)
    (hcur : db.curOk = true) (hq : db.queryFails = false) :
    (db.rows.length < 10 → db.in_top10 score = true) ∧
    (10 ≤ db.rows.length →
      (db.in_top10 score = true ↔ score > tenth_highest db)) := by
  constructor
  · intro hlen
    have hnone : (sortDesc (db.rows.map Prod.snd))[9]? = none := by
      rw [List.getElem?_eq_none_iff, sortDesc_length, List.length_map]
      omega
    simp [DataBase.in_top10, hcur, hq, hnone]
  · intro hlen
    have hlt : 9 < (sortDesc (db.rows.map Prod.snd)).length := by
      rw [sortDesc_length, List.length_map]; omega
    have hsome : (sortDesc (db.rows.map Prod.snd))[9]? =
        some (tenth_highest db) := by
      rw [List.getElem?_eq_getElem hlt, tenth_highest,
        List.getD_eq_getElem _ _ hlt]
    simp [DataBase.in_top10, hcur, hq, hsome]

/-- Scenario-B store: exactly 10 records with scores
[50, 45, 40, 35, 30, 25, 20, 15, 10, 5]. -/
def dbScenB : DataBase :=
  { curOk := true
    queryFails := false
    rows := [("A", 50), ("B", 45), ("C", 40), ("D", 35), ("E", 30),
             ("F", 25), ("G", 20), ("H", 15), ("I", 10), ("J", 5)] }

/-- A working store holding a single record (fewer than 10). -/
def dbFresh : DataBase :=
  { curOk := true, queryFails := false, rows := [("A", 12)] }

/-- Witness for C2: a near-empty store accepts score 7; the scenario-B store
accepts 6 and rejects the tie 5. -/
theorem in_top10_eligibility_witness :
    dbFresh.in_top10 7 = true ∧
    dbScenB.in_top10 6 = true ∧
    dbScenB.in_top10 5 = false := by
  refine ⟨(in_top10_eligibility dbFresh 7 rfl rfl).1 (by decide),
    ((in_top10_eligibility dbScenB 6 rfl rfl).2 (by decide)).mpr (by decide),
    ?_⟩
  have h := (in_top10_eligibility dbScenB 5 rfl rfl).2 (by decide)
  have h5 : ¬ ((5 : Int) > tenth_highest dbScenB) := by decide
  exact Bool.eq_false_iff.mpr fun hh => h5 (h.mp hh)

/-- C9: when the store is unavailable (`cur is None`) or a query raises,
`in_top10` returns `false` for every score, so `Game.game_over` settles in
`GAME_OVER` and never activates the name manager. -/
theorem in_top10_fail_closed (db : DataBase) (score : Int) (g : Game)
    (now : Nat)
    (hdb : db.curOk = false ∨ db.queryFails = true)
    (hg : g.db.curOk = false ∨ g.db.queryFails = true) :
    db.in_top10 score = false ∧
    (g.game_over now).game_state = GameState.GAME_OVER ∧
    (g.game_over now).name_manager = g.name_manager := by
  have hfail : ∀ (d : DataBase), d.curOk = false ∨ d.queryFails = true →
      ∀ s, d.in_top10 s = false := by
    intro d hd s
    rcases hd with hd | hd <;>
      cases hcur : d.curOk <;> simp_all [DataBase.in_top10]
  refine ⟨hfail db hdb score, ?_, ?_⟩ <;>
    simp [Game.game_over, hfail g.db hg]

/-- An inactive name manager (the state after `reset_game`). -/
def mIdle : NameInputManager :=
  { active := false
    player_name_chars := ['A', 'A', 'A', 'A', 'A']
    current_focus_index := 0
    final_entered_name := ""
    current_score := 0
    last_input_time := 0 }

/-- A working, empty store. -/
def dbEmpty : DataBase := { curOk := true, queryFails := false, rows := [] }

/-- A store whose connection failed (`self.cur is None`). -/
def dbDown : DataBase := { curOk := false, queryFails := false, rows := [] }

/-- A concrete game in the Playing state: default control mapping, snake
heading RIGHT, fresh debounce timestamp. -/
def gPlay : Game :=
  { vectors := start_vectors
    snake := { body := [⟨5, 10⟩, ⟨4, 10⟩, ⟨3, 10⟩], direction := ⟨1, 0⟩ }
    fruit := ⟨8, 8⟩
    current_speed := 140
    game_state := GameState.PLAYING
    name_manager := mIdle
    db := dbEmpty
    new_direction := ⟨1, 0⟩
    last_input_time := 0
    running := true
    randStream := fun _ => ⟨0, 0⟩
    randIdx := 0
    shuffleStream := fun _ => start_vectors
    shuffleIdx := 0
    shuffleCount := 0 }

/-- The game `gPlay` with the broken store. -/
def gDown : Game := { gPlay with db := dbDown }

/-- Witness for C9: the broken store rejects score 3 and `game_over` on a
game holding it stays in `GAME_OVER`. -/
theorem in_top10_fail_closed_witness :
    dbDown.in_top10 3 = false ∧
    (gDown.game_over 0).game_state = GameState.GAME_OVER ∧
    (gDown.game_over 0).name_manager = gDown.name_manager :=
  in_top10_fail_closed dbDown 3 gDown 0 (Or.inl rfl) (Or.inl rfl)

/-- C10: `NameInputManager.handle_input` on a string-typed signal (the
serial button channel) can never return `"ESC_PRESSED"`: cancellation is
reachable only through the keyboard Escape key. -/
theorem handle_input_cmd_never_escape (m : NameInputManager) (db : DataBase)
    (s : String) (now : Nat) :
    (m.handle_input db (.cmd s) now).1 ≠ some "ESC_PRESSED" := by
  unfold NameInputManager.handle_input
  split
  · simp
  · split
    · simp
    · by_cases hs : s = "UP" ∨ s = "DOWN" ∨ s = "LEFT" ∨ s = "RIGHT"
      · rcases hs with h | h | h | h <;> subst h <;>
          simp [resolveAction] <;> split_ifs <;> simp
      · have ha : resolveAction (.cmd s) = none := by
          simp [resolveAction, hs]
        simp [ha]

/-- Scenario-E manager: active, buffer "AAAAA", focus on character 2. -/
def mScenE : NameInputManager :=
  { active := true
    player_name_chars := ['A', 'A', 'A', 'A', 'A']
    current_focus_index := 2
    final_entered_name := ""
    current_score := 7
    last_input_time := 0 }

/-- Scenario-F manager: active, buffer "AAAAA", focus on the confirm
control (index 5). -/
def mScenF : NameInputManager :=
  { mScenE with current_focus_index := 5 }

/-- C5 counterexample: from buffer "AAAAA" with focus 2, an UP intent does
not produce 'B' at index 2 — the code cycles backward through the alphabet,
yielding '0'. -/
theorem scenE_up_not_next_symbol :
    (mScenE.handle_input dbEmpty (.cmd "UP") 100).2.1.player_name_chars ≠
      ['A', 'A', 'B', 'A', 'A'] ∧
    (mScenE.handle_input dbEmpty (.cmd "UP") 100).2.1.player_name_chars =
      ['A', 'A', '0', 'A', 'A'] := by
  constructor <;> decide

/-- C5 (amended): in NameInput with buffer "AAAAA" and focus 2, an UP intent
changes exactly the character at index 2 to the symbol *preceding* 'A' in
the alphabet "A–Z1–90" — wrapping to '0' — leaving the other four characters
and the focus unchanged. -/
theorem scenE_up_cycles_backward (m : NameInputManager) (db : DataBase)
    (now : Nat)
    (hact : m.active = true)
    (hdeb : ¬ (now - m.last_input_time < input_delay))
    (hbuf : m.player_name_chars = ['A', 'A', 'A', 'A', 'A'])
    (hfoc : m.current_focus_index = 2) :
    (m.handle_input db (.cmd "UP") now).2.1.player_name_chars =
      ['A', 'A', '0', 'A', 'A'] ∧
    (m.handle_input db (.cmd "UP") now).2.1.current_focus_index = 2 ∧
    (m.handle_input db (.cmd "UP") now).2.2 = db ∧
    (m.handle_input db (.cmd "UP") now).1 = some "ACTION_TAKEN" := by
  simp [NameInputManager.handle_input, resolveAction, hact, hdeb, hbuf, hfoc,
    name_length, allowed_chars, strFind]

/-- Witness for the amended C5. -/
theorem scenE_up_cycles_backward_witness :
    (mScenE.handle_input dbEmpty (.cmd "UP") 100).2.1.player_name_chars =
      ['A', 'A', '0', 'A', 'A'] ∧
    (mScenE.handle_input dbEmpty (.cmd "UP") 100).2.1.current_focus_index = 2 ∧
    (mScenE.handle_input dbEmpty (.cmd "UP") 100).2.2 = dbEmpty ∧
    (mScenE.handle_input dbEmpty (.cmd "UP") 100).1 = some "ACTION_TAKEN" :=
  scenE_up_cycles_backward mScenE dbEmpty 100 rfl (by decide) rfl rfl

/-- C4 counterexample: with focus on the confirm control (index 5), an UP
intent is not ignored — it commits the buffer: the store gains a record and
the manager deactivates. -/
theorem up_at_confirm_not_ignored :
    (mScenF.handle_input dbEmpty (.cmd "UP") 100).2.2.rows ≠ dbEmpty.rows ∧
    (mScenF.handle_input dbEmpty (.cmd "UP") 100).2.2.rows = [("AAAAA", 7)] ∧
    (mScenF.handle_input dbEmpty (.cmd "UP") 100).2.1.active = false ∧
    (mScenF.handle_input dbEmpty (.cmd "UP") 100).1 = some "NAME_ENTERED" := by
  refine ⟨?_, ?_, ?_, ?_⟩ <;> decide

/-- C4 (amended): in NameInput, an UP or DOWN intent arriving while the
focus index is 5 acts as pressing the confirm control: exactly one record
(current buffer, captured score) is appended to a working store, the manager
deactivates and reports `"NAME_ENTERED"`; buffer and focus are unchanged. -/
theorem up_down_at_confirm_commit (m : NameInputManager) (db : DataBase)
    (sig : InputSignal) (now : Nat)
    (hact : m.active = true)
    (hdeb : ¬ (now - m.last_input_time < input_delay))
    (hfoc : m.current_focus_index = 5)
    (hdbc : db.curOk = true) (hdbq : db.queryFails = false)
    (hsig : sig = .cmd "UP" ∨ sig = .cmd "DOWN" ∨
      sig = .key .K_UP ∨ sig = .key .K_DOWN) :
    (m.handle_input db sig now).1 = some "NAME_ENTERED" ∧
    (m.handle_input db sig now).2.1.active = false ∧
    (m.handle_input db sig now).2.2.rows =
      db.rows ++ [(String.mk m.player_name_chars, m.current_score)] ∧
    (m.handle_input db sig now).2.1.player_name_chars =
      m.player_name_chars ∧
    (m.handle_input db sig now).2.1.current_focus_index =
      m.current_focus_index := by
  rcases hsig with h | h | h | h <;> subst h <;>
    simp [NameInputManager.handle_input, resolveAction, hact, hdeb, hfoc,
      NameInputManager.deactivate, DataBase.append_team, hdbc, hdbq,
      ok_button_index, name_length]

/-- Witness for the amended C4. -/
theorem up_down_at_confirm_commit_witness :
    (mScenF.handle_input dbEmpty (.cmd "UP") 100).1 = some "NAME_ENTERED" ∧
    (mScenF.handle_input dbEmpty (.cmd "UP") 100).2.1.active = false ∧
    (mScenF.handle_input dbEmpty (.cmd "UP") 100).2.2.rows =
      dbEmpty.rows ++ [(String.mk mScenF.player_name_chars,
        mScenF.current_score)] ∧
    (mScenF.handle_input dbEmpty (.cmd "UP") 100).2.1.player_name_chars =
      mScenF.player_name_chars ∧
    (mScenF.handle_input dbEmpty (.cmd "UP") 100).2.1.current_focus_index =
      mScenF.current_focus_index :=
  up_down_at_confirm_commit mScenF dbEmpty (.cmd "UP") 100 rfl (by decide)
    rfl rfl rfl (Or.inl rfl)

/-- C6: in the NameInput state, a CONFIRM intent (Return key) with focus 5
appends exactly one record — the current buffer with the score captured at
activation — deactivates name entry and resets the game to Playing; with
focus below 5 it only moves the focus to the confirm control, appending
nothing and editing no character.  (`activate` is the point where the score
is captured: its last conjunct.) -/
theorem confirm_commits_or_focuses (g : Game) (now : Nat)
    (hstate : g.game_state = GameState.NAME_INPUT)
    (hact : g.name_manager.active = true)
    (hdeb : ¬ (now - g.name_manager.last_input_time < input_delay))
    (hdbc : g.db.curOk = true) (hdbq : g.db.queryFails = false) :
    (g.name_manager.current_focus_index = 5 →
      (g.handle_keydown .K_RETURN now).2.db.rows =
        g.db.rows ++ [(String.mk g.name_manager.player_name_chars,
          g.name_manager.current_score)] ∧
      (g.handle_keydown .K_RETURN now).2.name_manager.active = false ∧
      (g.handle_keydown .K_RETURN now).2.game_state = GameState.PLAYING) ∧
    (g.name_manager.current_focus_index < 5 →
      (g.handle_keydown .K_RETURN now).2.db = g.db ∧
      (g.handle_keydown .K_RETURN now).2.name_manager.current_focus_index =
        5 ∧
      (g.handle_keydown .K_RETURN now).2.name_manager.player_name_chars =
        g.name_manager.player_name_chars ∧
      (g.handle_keydown .K_RETURN now).2.name_manager.active = true ∧
      (g.handle_keydown .K_RETURN now).2.game_state =
        GameState.NAME_INPUT) ∧
    (∀ (m : NameInputManager) (s : Int) (t : Nat),
      (m.activate s t).current_score = s) := by
  refine ⟨?_, ?_, fun m s t => rfl⟩
  · intro hfoc
    simp [Game.handle_keydown, hstate, NameInputManager.handle_input,
      resolveAction, hact, hdeb, hfoc, ok_button_index, name_length,
      NameInputManager.deactivate, DataBase.append_team, hdbc, hdbq,
      Game.reset_game, Game.randomize_fruit]
  · intro hfoc
    have hne : g.name_manager.current_focus_index ≠ 5 := Nat.ne_of_lt hfoc
    simp [Game.handle_keydown, hstate, NameInputManager.handle_input,
      resolveAction, hact, hdeb, hne, ok_button_index, name_length,
      Game.reset_game, Game.randomize_fruit]

/-- A concrete game waiting for a name: the scenario-F manager (focus on the
confirm control) over a working empty store. -/
def gNameF : Game :=
  { gPlay with game_state := GameState.NAME_INPUT, name_manager := mScenF }

/-- The same but with the focus on character 2. -/
def gNameE : Game :=
  { gPlay with game_state := GameState.NAME_INPUT, name_manager := mScenE }

/-- Witness for C6: both halves at concrete games. -/
theorem confirm_commits_or_focuses_witness :
    ((gNameF.handle_keydown .K_RETURN 100).2.db.rows =
      gNameF.db.rows ++ [(String.mk gNameF.name_manager.player_name_chars,
        gNameF.name_manager.current_score)] ∧
     (gNameF.handle_keydown .K_RETURN 100).2.name_manager.active = false ∧
     (gNameF.handle_keydown .K_RETURN 100).2.game_state =
       GameState.PLAYING) ∧
    ((gNameE.handle_keydown .K_RETURN 100).2.db = gNameE.db ∧
     (gNameE.handle_keydown .K_RETURN 100).2.name_manager.current_focus_index
       = 5 ∧
     (gNameE.handle_keydown .K_RETURN 100).2.name_manager.player_name_chars =
       gNameE.name_manager.player_name_chars ∧
     (gNameE.handle_keydown .K_RETURN 100).2.name_manager.active = true ∧
     (gNameE.handle_keydown .K_RETURN 100).2.game_state =
       GameState.NAME_INPUT) :=
  ⟨(confirm_commits_or_focuses gNameF 100 rfl rfl (by decide) rfl rfl).1 rfl,
   (confirm_commits_or_focuses gNameE 100 rfl rfl (by decide) rfl rfl).2.1
     (by decide)⟩

/-- The `self.vectors` slot a direction key addresses in
`handle_playing_keydown` (`none` for non-direction keys). -/
def keySlot : Key → Option Nat
  | .K_LEFT => some 0
  | .K_DOWN => some 1
  | .K_UP => some 2
  | .K_RIGHT => some 3
  | _ => none

/-- The `self.vectors` slot a serial command addresses in
`handle_button_input` (`none` for unknown commands). -/
def cmdSlot (c : String) : Option Nat :=
  if c = "LEFT" then some 0
  else if c = "DOWN" then some 1
  else if c = "UP" then some 2
  else if c = "RIGHT" then some 3
  else none

/-- C1: while Playing, a candidate direction — keyboard or button — whose
mapped vector is the opposite of the snake's current direction is rejected:
`new_direction` and `snake.direction` are both left unchanged, and the
keyboard handler reports no action taken. -/
theorem reversal_rejected (g : Game) (t : Nat) (key : Key) (cmd : String)
    (i j : Nat)
    (hstate : g.game_state = GameState.PLAYING)
    (hkey : keySlot key = some i)
    (hcmd : cmdSlot cmd = some j)
    (hrevk : g.vectors.getD i Vec2.zero + g.snake.direction = Vec2.zero)
    (hrevc : g.vectors.getD j Vec2.zero + g.snake.direction = Vec2.zero) :
    ((g.handle_keydown key t).2.new_direction = g.new_direction ∧
     (g.handle_keydown key t).2.snake.direction = g.snake.direction ∧
     (g.handle_keydown key t).1 = false) ∧
    ((g.handle_button_input cmd t).new_direction = g.new_direction ∧
     (g.handle_button_input cmd t).snake.direction = g.snake.direction) := by
  have hrevk' : (g.vectors[i]?).getD Vec2.zero + g.snake.direction =
      Vec2.zero := by simpa [List.getD_eq_getElem?_getD] using hrevk
  have hrevc' : (g.vectors[j]?).getD Vec2.zero + g.snake.direction =
      Vec2.zero := by simpa [List.getD_eq_getElem?_getD] using hrevc
  constructor
  · cases key <;> simp only [keySlot, Option.some.injEq] at hkey <;>
      first
      | exact absurd hkey (by simp)
      | (subst hkey
         simp [Game.handle_keydown, hstate, Game.handle_playing_keydown,
           hrevk'])
  · have hc : cmd = "LEFT" ∧ j = 0 ∨ cmd = "DOWN" ∧ j = 1 ∨
        cmd = "UP" ∧ j = 2 ∨ cmd = "RIGHT" ∧ j = 3 := by
      unfold cmdSlot at hcmd
      split_ifs at hcmd <;> simp_all
    rcases hc with ⟨hc, hj⟩ | ⟨hc, hj⟩ | ⟨hc, hj⟩ | ⟨hc, hj⟩ <;>
      subst hc <;> subst hj <;>
      simp [Game.handle_button_input, hstate, hrevc']

/-- Witness for C1: heading RIGHT with the default mapping, both the LEFT
key and the LEFT button are rejected. -/
theorem reversal_rejected_witness :
    ((gPlay.handle_keydown .K_LEFT 50).2.new_direction = gPlay.new_direction ∧
     (gPlay.handle_keydown .K_LEFT 50).2.snake.direction =
       gPlay.snake.direction ∧
     (gPlay.handle_keydown .K_LEFT 50).1 = false) ∧
    ((gPlay.handle_button_input "LEFT" 50).new_direction =
       gPlay.new_direction ∧
     (gPlay.handle_button_input "LEFT" 50).snake.direction =
       gPlay.snake.direction) :=
  reversal_rejected gPlay 50 .K_LEFT "LEFT" 0 0 rfl rfl rfl (by decide)
    (by decide)

/-- C8 counterexample: in Playing with direction RIGHT, a LEFT keypress at
t = 100 reaches `handle_playing_keydown` yet the debounce timestamp
`last_input_time` stays 0 instead of being updated to 100. -/
theorem reversal_skips_debounce_update :
    (gPlay.handle_keydown .K_LEFT 100).2.last_input_time = 0 ∧
    (gPlay.handle_keydown .K_LEFT 100).2.last_input_time ≠ 100 := by
  constructor <;> decide

/-- C8 (amended): during Playing the debounce timestamp is updated only for
inputs the handler reports as actions taken: a reversal attempt leaves
`last_input_time` unchanged (and reports no action), while an accepted
direction change sets it to the current time. -/
theorem debounce_tracks_action_taken (g : Game) (t : Nat) (key : Key)
    (i : Nat)
    (hstate : g.game_state = GameState.PLAYING)
    (hkey : keySlot key = some i) :
    (g.vectors.getD i Vec2.zero + g.snake.direction = Vec2.zero →
      (g.handle_keydown key t).2.last_input_time = g.last_input_time ∧
      (g.handle_keydown key t).1 = false) ∧
    (g.vectors.getD i Vec2.zero ≠ Vec2.zero →
      g.vectors.getD i Vec2.zero + g.snake.direction ≠ Vec2.zero →
      (g.handle_keydown key t).2.last_input_time = t ∧
      (g.handle_keydown key t).1 = true) := by
  refine ⟨fun hrev => ?_, fun hnz hrev => ?_⟩
  · have hrev' : (g.vectors[i]?).getD Vec2.zero + g.snake.direction =
        Vec2.zero := by simpa [List.getD_eq_getElem?_getD] using hrev
    cases key <;> simp only [keySlot, Option.some.injEq] at hkey <;>
      first
      | exact absurd hkey (by simp)
      | (subst hkey
         simp [Game.handle_keydown, hstate, Game.handle_playing_keydown,
           hrev'])
  · have hnz' : ¬ (g.vectors[i]?).getD Vec2.zero = Vec2.zero := by
      simpa [List.getD_eq_getElem?_getD] using hnz
    have hrev' : ¬ (g.vectors[i]?).getD Vec2.zero + g.snake.direction =
        Vec2.zero := by simpa [List.getD_eq_getElem?_getD] using hrev
    cases key <;> simp only [keySlot, Option.some.injEq] at hkey <;>
      first
      | exact absurd hkey (by simp)
      | (subst hkey
         simp [Game.handle_keydown, hstate, Game.handle_playing_keydown,
           hnz', hrev'])

/-- Witness for the amended C8: the LEFT key while heading RIGHT leaves the
timestamp at 0; the UP key updates it to 100. -/
theorem debounce_tracks_action_taken_witness :
    ((gPlay.handle_keydown .K_LEFT 100).2.last_input_time =
       gPlay.last_input_time ∧
     (gPlay.handle_keydown .K_LEFT 100).1 = false) ∧
    ((gPlay.handle_keydown .K_UP 100).2.last_input_time = 100 ∧
     (gPlay.handle_keydown .K_UP 100).1 = true) :=
  ⟨(debounce_tracks_action_taken gPlay 100 .K_LEFT 0 rfl rfl).1 (by decide),
   (debounce_tracks_action_taken gPlay 100 .K_UP 2 rfl rfl).2 (by decide)
     (by decide)⟩

theorem fruit_recheck_loop_shuffleCount (l : List Vec2) (g : Game) :
    (fruit_recheck_loop l g).shuffleCount = g.shuffleCount := by
  induction l generalizing g with
  | nil => rfl
  | cons b rest ih =>
    unfold fruit_recheck_loop
    split <;> simp [ih, Game.randomize_fruit]

theorem update_speed_shuffleCount (g : Game) :
    (g.update_speed).shuffleCount = g.shuffleCount := by
  simp only [Game.update_speed]
  split <;> rfl

theorem add_block_length (s : SNAKE) :
    s.add_block.body.length = s.body.length + 1 := by
  simp [SNAKE.add_block]

/-- C7: the control remapper runs during `check_fruit_collision` exactly
when the fruit was consumed (it sat on the snake's head) and the
post-consumption score `len(body) - 2` — the body already grown by one
block — is a positive multiple of 5. -/
theorem remap_fires_iff (g : Game) :
    (g.check_fruit_collision).shuffleCount = g.shuffleCount + 1 ↔
      (g.fruit = g.snake.body.headD Vec2.zero ∧
       ((g.snake.body.length : Int) + 1 - 2) % 5 = 0 ∧
       (g.snake.body.length : Int) + 1 - 2 ≠ 0) := by
  have hL : ¬ (g.shuffleCount = g.shuffleCount + 1) := by omega
  simp only [Game.check_fruit_collision]
  split
  · rename_i hcons
    split
    · rename_i hcond
      simp only [add_block_length, Game.randomize_fruit] at hcond
      push_cast at hcond
      simp only [fruit_recheck_loop_shuffleCount, update_speed_shuffleCount]
      exact ⟨fun _ => ⟨hcons, hcond.1, hcond.2⟩, fun _ => rfl⟩
    · rename_i hcond
      simp only [add_block_length, Game.randomize_fruit] at hcond
      push_cast at hcond
      simp only [fruit_recheck_loop_shuffleCount, update_speed_shuffleCount]
      exact ⟨fun h => absurd h hL, fun h => absurd ⟨h.2.1, h.2.2⟩ hcond⟩
  · rename_i hcons
    exact ⟨fun h => absurd h hL, fun h => absurd h.1 hcons⟩

/-- A consumption state that defeats the single-pass re-check: the snake
occupies (0,0),(1,0),(2,0), the fruit sits on the head, and the random
stream yields (1,0) — colliding with body cell 1 — and then (0,0), a body
cell the sweep has already passed. -/
def gC3 : Game :=
  { vectors := start_vectors
    snake := { body := [⟨0, 0⟩, ⟨1, 0⟩, ⟨2, 0⟩], direction := ⟨1, 0⟩ }
    fruit := ⟨0, 0⟩
    current_speed := 140
    game_state := GameState.PLAYING
    name_manager := mIdle
    db := dbEmpty
    new_direction := ⟨1, 0⟩
    last_input_time := 0
    running := true
    randStream := fun k => if k = 0 then ⟨1, 0⟩ else ⟨0, 0⟩
    randIdx := 0
    shuffleStream := fun _ => start_vectors
    shuffleIdx := 0
    shuffleCount := 0 }

/-- C3 fails on the code: `check_fruit_collision` re-checks the body in a
single sweep, so a re-randomized fruit that lands on an already-visited body
cell is committed while lying on the snake: here the final fruit (0,0) is a
member of the final body. -/
theorem fruit_committed_on_body :
    (gC3.check_fruit_collision).fruit ∈
      (gC3.check_fruit_collision).snake.body ∧
    (gC3.check_fruit_collision).fruit = ⟨0, 0⟩ := by
  constructor <;> decide
